import Mathlib

/-!
Formal verification of the marketplace backend (`app/` package).

The Python source is shallowly embedded:
* pure functions become Lean functions;
* the database session becomes explicit list-of-records state threaded
  through each handler, with `List.find?` standing in for
  `select(...).where(...)` + `scalar_one_or_none` (primary keys are
  unique, so the first match is the only match);
* `HTTPException` raises become `Except` errors carrying the status code
  and detail string;
* machine integers are `Int`/`Nat`; SQL `FLOAT` columns are `Rat`
  (the comparisons at issue, such as `price <= 0`, are exact);
* the JWT wire format is symbolic: a token is the signed payload
  together with the MAC key used to sign it, which is the standard
  symbolic model of an unforgeable HMAC.  All parties use the fixed
  HS256 algorithm, as in `jwt_manager.py`.
-/

namespace Marketplace

/-! ## Python `int()` on strings (used by `get_user_id_from_token`) -/

/-- Value of a decimal digit character, `none` if not an ASCII digit. -/
def charDigit? (c : Char) : Option Nat :=
  if c.isDigit then some (c.toNat - 48) else none

/-- Decimal value of a nonempty list of ASCII digits, `none` otherwise. -/
def decDigits? (l : List Char) : Option Nat :=
  match l with
  | [] => none
  | _ =>
    l.foldl (fun acc c =>
      match acc, charDigit? c with
      | some n, some d => some (n * 10 + d)
      | _, _ => none) (some 0)

/-- Embedding of Python `int(s)` on the strings that arise here: an
optional sign followed by a nonempty run of ASCII digits.  Forms with
surrounding whitespace or underscore separators are treated as
non-numeric; no such subject strings are produced by this program
(`login` sets `sub = str(user.id)`). -/
def pyIntOfString (s : String) : Option Int :=
  match s.data with
  | '+' :: rest => (decDigits? rest).map Int.ofNat
  | '-' :: rest => (decDigits? rest).map (fun n => -(n : Int))
  | l => (decDigits? l).map Int.ofNat

/-! ## Token Service (`app/jwt_manager.py`) -/

/-- The claim set placed in a token by `login` (`main.py`): subject id,
username, email, admin flag.  `sub` is `Option` so that a payload with a
missing subject claim is representable (`payload.get("sub")`). -/
structure Claims where
  sub : Option String
  username : String
  email : String
  is_admin : Bool
deriving Repr, DecidableEq

/-- The encoded payload: the claims plus the absolute expiry instant
(seconds since the epoch) added by `create_access_token`. -/
structure Payload where
  claims : Claims
  exp : Nat
deriving Repr, DecidableEq

/-- A signed token: symbolic model of the HS256 JWT — the payload
together with the MAC key it was signed with.  Signature verification
succeeds exactly when the verifier's key equals the signing key. -/
structure Jwt where
  payload : Payload
  key : String
deriving Repr, DecidableEq

/-- The `JWTManager` configuration (`jwt_manager.py`): process-wide
secret and token lifetime in minutes.  The algorithm is the constant
`HS256` for every party and is left implicit. -/
structure JWTManager where
  secret_key : String
  access_token_expire_minutes : Nat
deriving Repr, DecidableEq

namespace JWTManager

/-- `JWTManager.create_access_token`: copies the claim data, computes
`expire = now + expires_delta` (or the configured default — note the
Python truthiness test `if expires_delta:` sends a zero delta to the
default branch as well), adds the `exp` claim and signs with the
manager's secret.  `now` is `datetime.utcnow()` in seconds. -/
def create_access_token (m : JWTManager) (data : Claims)
    (expires_delta : Option Nat) (now : Nat) : Jwt :=
  let expire :=
    match expires_delta with
    | some d => if d = 0 then now + m.access_token_expire_minutes * 60 else now + d
    | none => now + m.access_token_expire_minutes * 60
  { payload := { claims := data, exp := expire }, key := m.secret_key }

/-- `JWTManager.verify_token`: `jose.jwt.decode` checks the signature
against the manager's secret and the `exp` claim against the current
time (expired when `exp < now`), returning the payload when both pass
and `None` (a caught `JWTError`) otherwise. -/
def verify_token (m : JWTManager) (token : Jwt) (now : Nat) : Option Payload :=
  if token.key = m.secret_key then
    if token.payload.exp < now then none else some token.payload
  else none

/-- `JWTManager.get_user_id_from_token`: verify, read `payload.get("sub")`,
and if it is truthy (a present, nonempty string) parse it with `int`;
any failure yields `None`. -/
def get_user_id_from_token (m : JWTManager) (token : Jwt) (now : Nat) : Option Int :=
  match m.verify_token token now with
  | none => none
  | some payload =>
    match payload.claims.sub with
    | none => none
    | some s => if s ≠ "" then pyIntOfString s else none

end JWTManager

/-! ## Credential Hasher (`app/security.py`)

`security.py` delegates to the passlib `CryptContext(schemes=["bcrypt"])`
dependency.  That layer is embedded as follows, per passlib/bcrypt's
documented contract:
* a stored hash is identified as bcrypt exactly when it begins with one
  of bcrypt's full ident markers `$2$`, `$2a$`, `$2b$`, `$2x$`, `$2y$`;
  `CryptContext.verify` raises `UnknownHashError` when the stored hash
  matches no configured scheme's ident;
* an identified hash is then parsed as ident, two-digit cost in
  `04..31`, a `$` separator, and the salt+digest payload; a hash that
  identifies but does not parse raises `MalformedHashError`;
* a parsed hash is verified by recomputing the digest of the candidate
  (truncated by bcrypt to its 72-byte input limit) under the stored
  parameters and comparing;
* hashing itself is modelled as an ideal collision-free one-way
  function with a fixed salt: the payload is a faithful encoding of the
  (truncated) input bytes as byte-valued characters — the model's
  stand-in for the fixed-length bcrypt-base64 salt+checksum field — so
  that two inputs collide exactly when their 72-byte truncations
  coincide, and a payload of non-byte characters or of length beyond
  the 72-byte model bound is malformed. -/

/-- Embedding of Python `password.encode('utf-8')`: UTF-8 bytes. -/
def utf8Bytes (s : String) : List Nat :=
  s.toUTF8.data.toList.map (fun b => b.toNat)

/-- The bcrypt format marker `$2b$12$` (scheme ident plus cost). -/
def bcryptMagic : List Char := ['$', '2', 'b', '$', '1', '2', '$']

/-- Python exceptions relevant to the credential subsystem. -/
inductive PyError where
  /-- passlib `UnknownHashError`: stored hash matched no scheme's ident. -/
  | unknownHashError : PyError
  /-- passlib `MalformedHashError`: ident recognized, hash unparsable. -/
  | malformedHashError : PyError
deriving Repr, DecidableEq

/-- Does the character list `s` begin with the character list `pre`? -/
def hasLeading : List Char → List Char → Bool
  | [], _ => true
  | _ :: _, [] => false
  | a :: as, b :: bs => a == b && hasLeading as bs

/-- The full bcrypt ident markers passlib identifies by. -/
def bcryptIdents : List (List Char) :=
  [['$', '2', '$'], ['$', '2', 'a', '$'], ['$', '2', 'b', '$'],
   ['$', '2', 'x', '$'], ['$', '2', 'y', '$']]

/-- passlib hash identification: does the stored string begin with one
of bcrypt's full ident markers? -/
def identifiesAsBcrypt (stored : String) : Bool :=
  bcryptIdents.any (fun i => hasLeading i stored.data)

/-- The cost encoded by the two rounds digits. -/
def bcryptRounds (d1 d2 : Char) : Nat :=
  (d1.toNat - 48) * 10 + (d2.toNat - 48)

/-- Parse the part of a bcrypt hash after its ident: a two-digit cost
in `04..31`, the `$` separator, and a well-formed payload (byte-valued
characters, within the model's 72-byte payload bound — the stand-in for
the fixed-length bcrypt-base64 salt+checksum field). -/
def parseRoundsPayload (l : List Char) : Option (List Char × List Char) :=
  match l with
  | d1 :: d2 :: sep :: payload =>
    if sep = '$' ∧ d1.isDigit ∧ d2.isDigit ∧
       4 ≤ bcryptRounds d1 d2 ∧ bcryptRounds d1 d2 ≤ 31 ∧
       (∀ c ∈ payload, c.toNat < 256) ∧ payload.length ≤ 72 then
      some ([d1, d2], payload)
    else none
  | _ => none

/-- The components of a parsed bcrypt hash. -/
structure BcryptParts where
  ident : List Char
  rounds : List Char
  payload : List Char
deriving Repr, DecidableEq

/-- passlib `from_string` on an identified hash: locate the matching
ident and parse the remainder; `none` is the malformed-hash case. -/
def parseBcrypt (stored : String) : Option BcryptParts :=
  match bcryptIdents.find? (fun i => hasLeading i stored.data) with
  | none => none
  | some ident =>
    (parseRoundsPayload (stored.data.drop ident.length)).map
      (fun rp => ⟨ident, rp.1, rp.2⟩)

/-- Ideal bcrypt digest under explicit parameters: ident, rounds, `$`,
then an injective encoding of the input truncated to bcrypt's 72-byte
limit. -/
def bcryptDigestWith (ident rounds : List Char) (input : List Nat) : String :=
  String.mk (ident ++ rounds ++ '$' :: (input.take 72).map Char.ofNat)

/-- Ideal bcrypt digest under the configuration `security.py` hashes
with: the `$2b` ident and cost 12 (the `$2b$12$` marker). -/
def bcryptDigest (input : List Nat) : String :=
  String.mk (bcryptMagic ++ (input.take 72).map Char.ofNat)

/-- `pwd_context.verify(secret, hash)`: raises `UnknownHashError` when
the stored string is not identifiable as a bcrypt hash, raises
`MalformedHashError` when it identifies but does not parse, and
otherwise recomputes the digest of the candidate's UTF-8 bytes under
the stored parameters and compares. -/
def pwdContextVerify (plain : String) (stored : String) : Except PyError Bool :=
  if identifiesAsBcrypt stored then
    match parseBcrypt stored with
    | none => .error .malformedHashError
    | some parts =>
      .ok (stored == bcryptDigestWith parts.ident parts.rounds (utf8Bytes plain))
  else
    .error .unknownHashError

/-- `pwd_context.hash(secret)` on a byte string. -/
def pwdContextHash (input : List Nat) : String :=
  bcryptDigest input

/-- `get_password_hash` (`security.py`): UTF-8 encode, truncate to 72
bytes when longer, then hash. -/
def get_password_hash (password : String) : String :=
  let password_bytes := utf8Bytes password
  let password_bytes :=
    if password_bytes.length > 72 then password_bytes.take 72 else password_bytes
  pwdContextHash password_bytes

/-- `verify_password` (`security.py`): direct delegation to
`pwd_context.verify`, with no exception handling of its own. -/
def verify_password (plain_password : String) (hashed_password : String) :
    Except PyError Bool :=
  pwdContextVerify plain_password hashed_password

/-! ## Resource Store records -/

/-- Modelled from the spec: the `User` model file is not among the
sources, but §3 of the spec, the `select(User)` queries in `main.py` and
`dependencies.py`, and the registration handler fix its shape — numeric
id, unique username, unique email, hashed password, boolean admin
flag. -/
structure UserRec where
  id : Int
  username : String
  email : String
  hashed_password : String
  is_admin : Bool
deriving Repr, DecidableEq

/-- `Seller` model (`app/models/seller.py`): id, name, commission. -/
structure SellerRec where
  id : Int
  name : String
  commission_percent : Rat
deriving Repr, DecidableEq

/-- Modelled from the spec: the `Product` model file is not among the
sources; §3 of the spec and the product handlers/schemas in `main.py`
fix its shape — numeric id, name, price, owning seller reference. -/
structure ProductRec where
  id : Int
  name : String
  price : Rat
  seller_id : Int
deriving Repr, DecidableEq

/-- `Order` model (`app/models/order.py`): id, owning user reference,
seller reference, order total, creation instant.  Note: this model has
no `product_id` or `count` column. -/
structure OrderRec where
  id : Int
  user_id : Int
  seller_id : Int
  total : Rat
  created_at : Nat
deriving Repr, DecidableEq

/-- An `HTTPException` raise: status code and detail message. -/
structure HTTPException where
  status_code : Nat
  detail : String
deriving Repr, DecidableEq

/-! ## Authorization Gate (`app/dependencies.py`) -/

/-- The dict returned by `get_current_admin`. -/
structure AdminData where
  user_id : Int
  username : String
  is_admin : Bool
deriving Repr, DecidableEq

/-- `get_current_user`: extract the user id from the bearer token; a
missing id is a 401.  The store is never consulted. -/
def get_current_user (m : JWTManager) (token : Jwt) (now : Nat) :
    Except HTTPException Int :=
  match m.get_user_id_from_token token now with
  | none => .error ⟨401, "Невалидный или истекший токен"⟩
  | some user_id => .ok user_id

/-- `get_current_admin`: extract the user id, then re-read the current
user row from the store (`select(User).where(User.id == user_id)`);
404 when absent, 403 when `is_admin` is false, otherwise the live
`{user_id, username, is_admin}` dict. -/
def get_current_admin (m : JWTManager) (token : Jwt) (now : Nat)
    (db : List UserRec) : Except HTTPException AdminData :=
  match m.get_user_id_from_token token now with
  | none => .error ⟨401, "Невалидный или истекший токен"⟩
  | some user_id =>
    match db.find? (fun u => u.id == user_id) with
    | none => .error ⟨404, "Пользователь не найден"⟩
    | some user =>
      if user.is_admin then
        .ok ⟨user.id, user.username, user.is_admin⟩
      else
        .error ⟨403, "Требуются права администратора"⟩

/-! ## API Layer handlers (`app/main.py`)

Each handler takes the gate inputs (manager, bearer token, clock) where
the route declares an auth dependency, the relevant store tables, and
the parsed request body; it returns the response (`Except` over
`HTTPException`) paired with the table it may have written.  Fresh
primary keys model the autoincrement id column. -/

/-- Autoincrement primary key for a new row. -/
def nextId (ids : List Int) : Int := ids.foldl max 0 + 1

/-- `RegisterRequest` schema (`app/schemas/auth.py`). -/
structure RegisterRequest where
  username : String
  email : String
  password : String
deriving Repr, DecidableEq

/-- `POST /register` (`main.py`): reject a duplicate email with 400,
then a duplicate username with 400, otherwise insert a user with the
hashed password and `is_admin=False`. -/
def register (user_data : RegisterRequest) (db : List UserRec) :
    Except HTTPException UserRec × List UserRec :=
  match db.find? (fun u => u.email == user_data.email) with
  | some _ => (.error ⟨400, "Пользователь с таким email уже существует"⟩, db)
  | none =>
    match db.find? (fun u => u.username == user_data.username) with
    | some _ => (.error ⟨400, "Пользователь с таким именем уже существует"⟩, db)
    | none =>
      let db_user : UserRec :=
        { id := nextId (db.map (·.id))
          username := user_data.username
          email := user_data.email
          hashed_password := get_password_hash user_data.password
          is_admin := false }
      (.ok db_user, db ++ [db_user])

/-- `ProductCreate` schema (`app/schemas/product.py`). -/
structure ProductCreate where
  name : String
  price : Rat
  seller_id : Int
deriving Repr, DecidableEq

/-- `ProductUpdate` schema (`app/schemas/product.py`): every field
optional; `none` is an unset field, which `dict(exclude_unset=True)`
omits from the update. -/
structure ProductUpdate where
  name : Option String := none
  price : Option Rat := none
  seller_id : Option Int := none
deriving Repr, DecidableEq

/-- `POST /products` (`main.py`): admin gate, then the seller reference
must exist (400), then the price must be strictly positive (422), then
the product row is inserted. -/
def create_product (m : JWTManager) (token : Jwt) (now : Nat)
    (users : List UserRec) (sellers : List SellerRec)
    (products : List ProductRec) (product_data : ProductCreate) :
    Except HTTPException ProductRec × List ProductRec :=
  match get_current_admin m token now users with
  | .error e => (.error e, products)
  | .ok _ =>
    match sellers.find? (fun s => s.id == product_data.seller_id) with
    | none => (.error ⟨400, "Указанный продавец не существует"⟩, products)
    | some _ =>
      if product_data.price ≤ 0 then
        (.error ⟨422, "Цена должна быть положительным числом"⟩, products)
      else
        let product : ProductRec :=
          { id := nextId (products.map (·.id))
            name := product_data.name
            price := product_data.price
            seller_id := product_data.seller_id }
        (.ok product, products ++ [product])

/-- The `setattr` loop of `update_product`: overwrite exactly the
fields present in `product_data.dict(exclude_unset=True)`. -/
def applyProductUpdate (p : ProductRec) (u : ProductUpdate) : ProductRec :=
  { p with
    name := u.name.getD p.name
    price := u.price.getD p.price
    seller_id := u.seller_id.getD p.seller_id }

/-- Tail of `update_product` after the seller existence check: the
`price` validation (422 when a set price is not positive) followed by
the `setattr` loop and commit.  Primary keys are unique, so mutating
the fetched row is the id-guarded map over the table. -/
def update_product_tail (product : ProductRec) (products : List ProductRec)
    (product_id : Int) (product_data : ProductUpdate) :
    Except HTTPException ProductRec × List ProductRec :=
  match product_data.price with
  | some pr =>
    if pr ≤ 0 then
      (.error ⟨422, "Цена должна быть положительным числом"⟩, products)
    else
      (.ok (applyProductUpdate product product_data),
       products.map (fun q => if q.id == product_id then applyProductUpdate q product_data else q))
  | none =>
    (.ok (applyProductUpdate product product_data),
     products.map (fun q => if q.id == product_id then applyProductUpdate q product_data else q))

/-- `PUT /products/{product_id}` (`main.py`): admin gate; 404 when the
product is absent; when the payload sets `seller_id` that seller must
exist (400); then `update_product_tail`. -/
def update_product (m : JWTManager) (token : Jwt) (now : Nat)
    (users : List UserRec) (sellers : List SellerRec)
    (products : List ProductRec) (product_id : Int)
    (product_data : ProductUpdate) :
    Except HTTPException ProductRec × List ProductRec :=
  match get_current_admin m token now users with
  | .error e => (.error e, products)
  | .ok _ =>
    match products.find? (fun p => p.id == product_id) with
    | none => (.error ⟨404, "Товар не найден"⟩, products)
    | some product =>
      match product_data.seller_id with
      | some sid =>
        match sellers.find? (fun s => s.id == sid) with
        | none => (.error ⟨400, "Указанный продавец не существует"⟩, products)
        | some _ => update_product_tail product products product_id product_data
      | none => update_product_tail product products product_id product_data

/-- `OrderCreate` schema (`app/schemas/order.py`): the only fields are
`seller_id` and `total`. -/
structure OrderCreate where
  seller_id : Int
  total : Rat
deriving Repr, DecidableEq

/-- A Python attribute value of an `OrderCreate` instance. -/
inductive PyVal where
  | int : Int → PyVal
  | float : Rat → PyVal
deriving Repr, DecidableEq

/-- Python attribute access on an `OrderCreate` instance: only
`seller_id` and `total` exist; any other attribute raises
`AttributeError`. -/
def orderCreateAttr (o : OrderCreate) : String → Option PyVal
  | "seller_id" => some (.int o.seller_id)
  | "total" => some (.float o.total)
  | _ => none

/-- Outcome of a handler that can terminate with an uncaught Python
exception (surfaced by the framework as a 500 server error) as well as
an `HTTPException`. -/
inductive Outcome (α : Type) where
  | ok : α → Outcome α
  | http : HTTPException → Outcome α
  | pythonError : String → Outcome α
deriving Repr, DecidableEq

/-- `POST /orders` (`main.py`): user gate, then
`select(Product).where(Product.id == order_data.product_id)`.  The
`OrderCreate` schema defines no `product_id` attribute, so this first
access raises `AttributeError`; the rest of the handler (the count
check and the `Order(user_id=..., product_id=..., count=...)`
constructor, whose keywords the `Order` model also lacks) is
unreachable for every possible request body. -/
def create_order (m : JWTManager) (token : Jwt) (now : Nat)
    (orders : List OrderRec) (order_data : OrderCreate) :
    Outcome OrderRec × List OrderRec :=
  match get_current_user m token now with
  | .error e => (.http e, orders)
  | .ok _ =>
    match orderCreateAttr order_data "product_id" with
    | none => (.pythonError "AttributeError: 'OrderCreate' object has no attribute 'product_id'", orders)
    | some _ =>
      match orderCreateAttr order_data "count" with
      | none => (.pythonError "AttributeError: 'OrderCreate' object has no attribute 'count'", orders)
      | some _ =>
        (.pythonError "TypeError: 'product_id' is an invalid keyword argument for Order", orders)

/-- `DELETE /orders/{order_id}` (`main.py`): user gate, then
`select(Order).where(Order.id == order_id, Order.user_id ==
current_user_id)` — the lookup itself is scoped to the caller's id;
404 when no such row, otherwise delete it.  No admin bypass appears in
this handler. -/
def delete_order (m : JWTManager) (token : Jwt) (now : Nat)
    (orders : List OrderRec) (order_id : Int) :
    Except HTTPException Unit × List OrderRec :=
  match get_current_user m token now with
  | .error e => (.error e, orders)
  | .ok current_user_id =>
    match orders.find? (fun o => o.id == order_id && o.user_id == current_user_id) with
    | none => (.error ⟨404, "Заказ не найден или нет доступа"⟩, orders)
    | some _ =>
      (.ok (), orders.filter (fun o => !(o.id == order_id && o.user_id == current_user_id)))

/-! ## Theorems -/

/-- Python `int("")` fails. -/
lemma pyIntOfString_empty : pyIntOfString "" = none := rfl

/-- The truthiness guard in `get_user_id_from_token` is redundant with
`int` parsing: the guarded parse equals the parse. -/
lemma guarded_pyInt (s : String) :
    (if s ≠ "" then pyIntOfString s else none) = pyIntOfString s := by
  by_cases hs : s = ""
  · subst hs; simp [pyIntOfString_empty]
  · simp [hs]

/-- `get_user_id_from_token` in monadic form: verify, project the
subject claim, parse it. -/
lemma get_user_id_eq_bind (m : JWTManager) (tok : Jwt) (now : Nat) :
    m.get_user_id_from_token tok now =
      (m.verify_token tok now).bind (fun p => p.claims.sub.bind pyIntOfString) := by
  unfold JWTManager.get_user_id_from_token
  cases m.verify_token tok now with
  | none => rfl
  | some p =>
    show (match p.claims.sub with
          | none => none
          | some s => if s ≠ "" then pyIntOfString s else none) =
        p.claims.sub.bind pyIntOfString
    cases p.claims.sub with
    | none => rfl
    | some s => exact guarded_pyInt s

/-- `get_user_id_from_token` fails exactly when verification fails, the
subject claim is absent, or the subject string is non-numeric. -/
lemma get_user_id_from_token_eq_none_iff (m : JWTManager) (tok : Jwt) (now : Nat) :
    m.get_user_id_from_token tok now = none ↔
      (m.verify_token tok now = none ∨
        ∃ p, m.verify_token tok now = some p ∧
          (p.claims.sub = none ∨
            ∃ s, p.claims.sub = some s ∧ pyIntOfString s = none)) := by
  rw [get_user_id_eq_bind]
  cases hv : m.verify_token tok now with
  | none => simp
  | some p =>
    simp only [Option.some_bind]
    constructor
    · intro h
      cases hs : p.claims.sub with
      | none => exact Or.inr ⟨p, rfl, Or.inl hs⟩
      | some s =>
        rw [hs] at h
        simp only [Option.some_bind] at h
        exact Or.inr ⟨p, rfl, Or.inr ⟨s, hs, h⟩⟩
    · rintro (hcon | ⟨p', hp', hrest⟩)
      · cases hcon
      · obtain rfl : p = p' := by injection hp'
        rcases hrest with hnone | ⟨s', hs', hparse⟩
        · rw [hnone]; rfl
        · rw [hs']
          simp only [Option.some_bind]
          exact hparse

/-- C2: verifying a token issued with the same secret before its expiry
returns the issued payload, whose claim part is exactly the issued
claim set (the `exp` field is the only addition); any token is rejected
after its expiry; and any token signed under a different secret is
rejected regardless of its content. -/
theorem verify_issue_roundtrip (m : JWTManager) (data : Claims)
    (expires_delta : Option Nat) (now now2 : Nat) :
    (now2 < (m.create_access_token data expires_delta now).payload.exp →
      m.verify_token (m.create_access_token data expires_delta now) now2 =
        some (m.create_access_token data expires_delta now).payload ∧
      (m.create_access_token data expires_delta now).payload.claims = data) ∧
    (∀ tok : Jwt, tok.payload.exp < now2 → m.verify_token tok now2 = none) ∧
    (∀ tok : Jwt, tok.key ≠ m.secret_key → m.verify_token tok now2 = none) := by
  refine ⟨fun h => ⟨?_, rfl⟩, fun tok h => ?_, fun tok h => ?_⟩
  · have hk : (m.create_access_token data expires_delta now).key = m.secret_key := rfl
    unfold JWTManager.verify_token
    rw [if_pos hk, if_neg (by omega)]
  · unfold JWTManager.verify_token
    by_cases hk : tok.key = m.secret_key
    · rw [if_pos hk, if_pos h]
    · rw [if_neg hk]
  · unfold JWTManager.verify_token
    rw [if_neg h]

/-- Witness for `verify_issue_roundtrip` at a concrete issuance. -/
theorem verify_issue_roundtrip_witness :
    ((10 : Nat) < ((JWTManager.mk "secret" 30).create_access_token
        ⟨some "1", "alice", "alice@x.com", false⟩ none 0).payload.exp) ∧
    (JWTManager.mk "secret" 30).verify_token
        ((JWTManager.mk "secret" 30).create_access_token
          ⟨some "1", "alice", "alice@x.com", false⟩ none 0) 10 =
      some ((JWTManager.mk "secret" 30).create_access_token
        ⟨some "1", "alice", "alice@x.com", false⟩ none 0).payload ∧
    ((JWTManager.mk "secret" 30).create_access_token
        ⟨some "1", "alice", "alice@x.com", false⟩ none 0).payload.claims =
      ⟨some "1", "alice", "alice@x.com", false⟩ :=
  ⟨by decide,
   (verify_issue_roundtrip (JWTManager.mk "secret" 30)
      ⟨some "1", "alice", "alice@x.com", false⟩ none 0 10).1 (by decide)⟩

/-- C9: `get_current_user` resolves a token with a valid signature,
unexpired timestamp and numeric subject to that user id without
consulting the store — in particular it succeeds when no user with that
id exists in any user table — and it signals 401 exactly when token
verification fails or the subject claim is absent or non-numeric. -/
theorem require_user_no_live_check (m : JWTManager) (tok : Jwt) (now : Nat) :
    (∀ (uid : Int) (users : List UserRec),
      m.get_user_id_from_token tok now = some uid →
      users.find? (fun x => x.id == uid) = none →
      get_current_user m tok now = .ok uid) ∧
    ((∃ e, get_current_user m tok now = .error e) ↔
      (m.verify_token tok now = none ∨
        ∃ p, m.verify_token tok now = some p ∧
          (p.claims.sub = none ∨
            ∃ s, p.claims.sub = some s ∧ pyIntOfString s = none))) ∧
    (∀ e, get_current_user m tok now = .error e → e.status_code = 401) := by
  refine ⟨fun uid users h _ => ?_, ?_, fun e h => ?_⟩
  · unfold get_current_user
    rw [h]
  · rw [← get_user_id_from_token_eq_none_iff]
    unfold get_current_user
    cases h : m.get_user_id_from_token tok now <;> simp [h]
  · unfold get_current_user at h
    cases hg : m.get_user_id_from_token tok now <;> rw [hg] at h
    · cases h; rfl
    · cases h

/-- Witness for `require_user_no_live_check`: a token for user id 7
succeeds against an empty user table. -/
theorem require_user_no_live_check_witness :
    (JWTManager.mk "secret" 30).get_user_id_from_token
        ⟨⟨⟨some "7", "ghost", "g@x.com", false⟩, 100⟩, "secret"⟩ 0 = some 7 ∧
    ([] : List UserRec).find? (fun x => x.id == (7 : Int)) = none ∧
    get_current_user (JWTManager.mk "secret" 30)
        ⟨⟨⟨some "7", "ghost", "g@x.com", false⟩, 100⟩, "secret"⟩ 0 = .ok 7 :=
  ⟨by decide, rfl,
   (require_user_no_live_check (JWTManager.mk "secret" 30)
      ⟨⟨⟨some "7", "ghost", "g@x.com", false⟩, 100⟩, "secret"⟩ 0).1 7 []
      (by decide) rfl⟩

/-- C1: for an authenticated token resolving to subject id `uid`
(valid signature, unexpired, numeric subject — the token's embedded
`is_admin` claim is left completely unconstrained, so the statement
covers in particular tokens whose embedded claim says `true`), the
admin gate answers from the live store record alone: 404 when the user
row is gone, 403 when the live `is_admin` flag is false, and the live
`{user_id, username, is_admin}` data when it is true. -/
theorem admin_gate_live_recheck (m : JWTManager) (tok : Jwt) (now : Nat)
    (users : List UserRec) (uid : Int)
    (h : m.get_user_id_from_token tok now = some uid) :
    (users.find? (fun x => x.id == uid) = none →
      get_current_admin m tok now users = .error ⟨404, "Пользователь не найден"⟩) ∧
    (∀ u, users.find? (fun x => x.id == uid) = some u → u.is_admin = false →
      get_current_admin m tok now users =
        .error ⟨403, "Требуются права администратора"⟩) ∧
    (∀ u, users.find? (fun x => x.id == uid) = some u → u.is_admin = true →
      get_current_admin m tok now users = .ok ⟨u.id, u.username, true⟩) := by
  refine ⟨fun hf => ?_, fun u hf ha => ?_, fun u hf ha => ?_⟩
  · simp [get_current_admin, h, hf]
  · simp [get_current_admin, h, hf, ha]
  · simp [get_current_admin, h, hf, ha]

/-- Witness for `admin_gate_live_recheck`: a token whose embedded
`is_admin` claim is `true` for a user whose live record has
`is_admin = false` is answered with 403. -/
theorem admin_gate_live_recheck_witness :
    (JWTManager.mk "secret" 30).get_user_id_from_token
        ⟨⟨⟨some "7", "alice", "a@x.com", true⟩, 100⟩, "secret"⟩ 0 = some 7 ∧
    ([UserRec.mk 7 "alice" "a@x.com" "h" false].find? (fun x => x.id == (7 : Int)) =
      some (UserRec.mk 7 "alice" "a@x.com" "h" false)) ∧
    (UserRec.mk 7 "alice" "a@x.com" "h" false).is_admin = false ∧
    get_current_admin (JWTManager.mk "secret" 30)
        ⟨⟨⟨some "7", "alice", "a@x.com", true⟩, 100⟩, "secret"⟩ 0
        [UserRec.mk 7 "alice" "a@x.com" "h" false] =
      .error ⟨403, "Требуются права администратора"⟩ :=
  ⟨by decide, by decide, rfl,
   (admin_gate_live_recheck (JWTManager.mk "secret" 30)
      ⟨⟨⟨some "7", "alice", "a@x.com", true⟩, 100⟩, "secret"⟩ 0
      [UserRec.mk 7 "alice" "a@x.com" "h" false] 7 (by decide)).2.1
      (UserRec.mk 7 "alice" "a@x.com" "h" false) (by decide) rfl⟩

/-! ### Credential Hasher theorems -/

/-- `Char.ofNat` round-trips on byte values. -/
lemma char_toNat_ofNat {n : Nat} (h : n < 256) : (Char.ofNat n).toNat = n := by
  have hv : n.isValidChar := Or.inl (by omega)
  rw [Char.ofNat, dif_pos hv]
  rfl

/-- UTF-8 code units are bytes. -/
lemma utf8Bytes_lt (s : String) : ∀ x ∈ utf8Bytes s, x < 256 := by
  intro x hx
  simp only [utf8Bytes, List.mem_map] at hx
  obtain ⟨b, _, rfl⟩ := hx
  have h := UInt8.toNat_lt_size b
  simpa [UInt8.size] using h

/-- Byte-level encoding round-trip underlying the ideal-hash model. -/
lemma map_ofNat_toNat (l : List Nat) (h : ∀ x ∈ l, x < 256) :
    (l.map Char.ofNat).map Char.toNat = l := by
  induction l with
  | nil => rfl
  | cons a t ih =>
    simp only [List.map_cons, List.cons.injEq]
    exact ⟨char_toNat_ofNat (h a (by simp)),
           ih (fun x hx => h x (by simp [hx]))⟩

/-- The ideal digest is collision-free up to bcrypt's 72-byte
truncation. -/
lemma bcryptDigest_inj {a b : List Nat} (ha : ∀ x ∈ a, x < 256)
    (hb : ∀ x ∈ b, x < 256) (h : bcryptDigest a = bcryptDigest b) :
    a.take 72 = b.take 72 := by
  unfold bcryptDigest at h
  injection h with h
  have h2 : (a.take 72).map Char.ofNat = (b.take 72).map Char.ofNat :=
    List.append_cancel_left h
  have h3 := congrArg (List.map Char.toNat) h2
  rwa [map_ofNat_toNat _ (fun x hx => ha x (List.take_subset _ _ hx)),
       map_ofNat_toNat _ (fun x hx => hb x (List.take_subset _ _ hx))] at h3

/-- Every digest carries the bcrypt format marker. -/
lemma identifiesAsBcrypt_digest (x : List Nat) :
    identifiesAsBcrypt (bcryptDigest x) = true := rfl

/-- The default parameters `security.py` hashes under. -/
lemma bcryptDigestWith_default (input : List Nat) :
    bcryptDigestWith ['$', '2', 'b', '$'] ['1', '2'] input = bcryptDigest input := rfl

/-- Digest payload characters are byte-valued. -/
lemma payload_bytes_lt (input : List Nat) (h : ∀ x ∈ input, x < 256) :
    ∀ c ∈ (input.take 72).map Char.ofNat, c.toNat < 256 := by
  intro c hc
  rw [List.mem_map] at hc
  obtain ⟨b, hb, rfl⟩ := hc
  have hblt : b < 256 := h b (List.take_subset _ _ hb)
  rw [char_toNat_ofNat hblt]
  exact hblt

/-- Digest payloads respect the model's payload bound. -/
lemma payload_length_le (input : List Nat) :
    ((input.take 72).map Char.ofNat).length ≤ 72 := by
  rw [List.length_map, List.length_take]
  exact Nat.min_le_left _ _

/-- Every digest of a byte string parses back into its parameters and
payload. -/
lemma parseBcrypt_digest (input : List Nat) (h : ∀ x ∈ input, x < 256) :
    parseBcrypt (bcryptDigest input) =
      some ⟨['$', '2', 'b', '$'], ['1', '2'], (input.take 72).map Char.ofNat⟩ := by
  have hrp : parseRoundsPayload ('1' :: '2' :: '$' :: (input.take 72).map Char.ofNat) =
      some (['1', '2'], (input.take 72).map Char.ofNat) := by
    simp only [parseRoundsPayload]
    rw [if_pos]
    exact ⟨by trivial, by decide, by decide, by decide, by decide,
           payload_bytes_lt input h, payload_length_le input⟩
  have hfind : bcryptIdents.find? (fun i => hasLeading i (bcryptDigest input).data) =
      some ['$', '2', 'b', '$'] := rfl
  unfold parseBcrypt
  rw [hfind]
  show (parseRoundsPayload ((bcryptDigest input).data.drop 4)).map
      (fun rp => (⟨['$', '2', 'b', '$'], rp.1, rp.2⟩ : BcryptParts)) =
    some ⟨['$', '2', 'b', '$'], ['1', '2'], (input.take 72).map Char.ofNat⟩
  have hdrop : (bcryptDigest input).data.drop 4 =
      '1' :: '2' :: '$' :: (input.take 72).map Char.ofNat := rfl
  rw [hdrop, hrp]
  rfl

/-- A hash that parses was identified. -/
lemma identifiesAsBcrypt_of_parse {stored : String} {parts : BcryptParts}
    (h : parseBcrypt stored = some parts) : identifiesAsBcrypt stored = true := by
  unfold parseBcrypt at h
  unfold identifiesAsBcrypt
  cases hf : bcryptIdents.find? (fun i => hasLeading i stored.data) with
  | none => rw [hf] at h; cases h
  | some i =>
    have hmem : i ∈ bcryptIdents := List.mem_of_find?_eq_some hf
    have hpred := List.find?_some hf
    rw [List.any_eq_true]
    exact ⟨i, hmem, hpred⟩

/-- The source-level pre-truncation composes with bcrypt's own
truncation into a single 72-byte truncation. -/
lemma get_password_hash_eq (p : String) :
    get_password_hash p = bcryptDigest (utf8Bytes p) := by
  unfold get_password_hash pwdContextHash
  by_cases h : (utf8Bytes p).length > 72
  · simp only [if_pos h]
    unfold bcryptDigest
    simp [List.take_take]
  · simp only [if_neg h]

/-- C3 counterexample: the 73-`a` and 72-`a` passwords are distinct,
yet the second verifies against the first's hash, because hashing
truncates to 72 UTF-8 bytes and verification truncates the candidate
the same way. -/
theorem password_truncation_collision :
    (String.mk (List.replicate 73 'a') ≠ String.mk (List.replicate 72 'a')) ∧
    verify_password (String.mk (List.replicate 72 'a'))
      (get_password_hash (String.mk (List.replicate 73 'a'))) = .ok true := by
  constructor
  · decide
  · rfl

/-- C3 amended: `verify(hash(p), p) = true` for every password, and
`verify(hash(p), p') = false` for every `p'` whose UTF-8 encoding
truncated to 72 bytes differs from `p`'s (rather than for every
`p' ≠ p`: candidates agreeing with `p` on the first 72 bytes verify). -/
theorem password_hash_verify (p p' : String) :
    verify_password p (get_password_hash p) = .ok true ∧
    ((utf8Bytes p').take 72 ≠ (utf8Bytes p).take 72 →
      verify_password p' (get_password_hash p) = .ok false) := by
  constructor
  · rw [get_password_hash_eq]
    unfold verify_password pwdContextVerify
    rw [if_pos (identifiesAsBcrypt_digest (utf8Bytes p)),
        parseBcrypt_digest (utf8Bytes p) (utf8Bytes_lt p)]
    show Except.ok (bcryptDigest (utf8Bytes p) ==
        bcryptDigestWith ['$', '2', 'b', '$'] ['1', '2'] (utf8Bytes p)) = Except.ok true
    rw [bcryptDigestWith_default]
    simp
  · intro hne
    rw [get_password_hash_eq]
    unfold verify_password pwdContextVerify
    rw [if_pos (identifiesAsBcrypt_digest (utf8Bytes p)),
        parseBcrypt_digest (utf8Bytes p) (utf8Bytes_lt p)]
    show Except.ok (bcryptDigest (utf8Bytes p) ==
        bcryptDigestWith ['$', '2', 'b', '$'] ['1', '2'] (utf8Bytes p')) = Except.ok false
    rw [bcryptDigestWith_default]
    suffices hb : (bcryptDigest (utf8Bytes p) == bcryptDigest (utf8Bytes p')) = false by
      rw [hb]
    rw [beq_eq_false_iff_ne]
    intro heq
    exact hne ((bcryptDigest_inj (utf8Bytes_lt p) (utf8Bytes_lt p') heq).symm)

/-- Witness for `password_hash_verify`: a 73-byte password and a
candidate differing within the first 72 bytes. -/
theorem password_hash_verify_witness :
    verify_password "pw123456" (get_password_hash "pw123456") = .ok true ∧
    (utf8Bytes "other").take 72 ≠ (utf8Bytes "pw123456").take 72 ∧
    verify_password "other" (get_password_hash "pw123456") = .ok false :=
  ⟨(password_hash_verify "pw123456" "other").1, by decide,
   (password_hash_verify "pw123456" "other").2 (by decide)⟩

/-- C8 counterexample: a malformed stored hash (not identifiable as a
bcrypt hash) makes `verify_password` raise passlib's
`UnknownHashError` instead of returning `false`. -/
theorem verify_password_malformed_raises :
    identifiesAsBcrypt "not-a-hash" = false ∧
    verify_password "password123" "not-a-hash" = .error .unknownHashError :=
  ⟨rfl, rfl⟩

/-- C8 amended: `verify_password` is side-effect free but installs no
exception handling around `pwd_context.verify`, so a malformed stored
hash raises instead of returning `false`: a stored hash carrying none
of bcrypt's idents raises `UnknownHashError`, one that identifies but
does not parse raises `MalformedHashError`, and only a parsable bcrypt
hash yields a boolean (the recompute-and-compare result under the
stored parameters). -/
theorem verify_password_malformed_behavior (plain stored : String) :
    (identifiesAsBcrypt stored = false →
      verify_password plain stored = .error .unknownHashError) ∧
    (identifiesAsBcrypt stored = true → parseBcrypt stored = none →
      verify_password plain stored = .error .malformedHashError) ∧
    (∀ parts, parseBcrypt stored = some parts →
      verify_password plain stored =
        .ok (stored == bcryptDigestWith parts.ident parts.rounds (utf8Bytes plain))) := by
  refine ⟨fun h => ?_, fun hid hp => ?_, fun parts hp => ?_⟩
  · unfold verify_password pwdContextVerify
    rw [if_neg (by simp [h])]
  · unfold verify_password pwdContextVerify
    rw [if_pos hid, hp]
  · unfold verify_password pwdContextVerify
    rw [if_pos (identifiesAsBcrypt_of_parse hp), hp]

/-- Witness for `verify_password_malformed_behavior`: an unidentified
string raises `UnknownHashError` and an identified-but-unparsable
`$2b$garbage` raises `MalformedHashError`. -/
theorem verify_password_malformed_behavior_witness :
    identifiesAsBcrypt "bad" = false ∧
    verify_password "x" "bad" = .error .unknownHashError ∧
    identifiesAsBcrypt "$2b$garbage" = true ∧
    parseBcrypt "$2b$garbage" = none ∧
    verify_password "x" "$2b$garbage" = .error .malformedHashError :=
  ⟨rfl, (verify_password_malformed_behavior "x" "bad").1 rfl,
   rfl, rfl,
   (verify_password_malformed_behavior "x" "$2b$garbage").2.1 rfl rfl⟩

/-! ### API Layer theorems -/

/-- C5: registration with an email already in the store fails with the
duplicate-email 400 and leaves the store unchanged; with a username
already in the store it fails with a 400 and leaves the store
unchanged; otherwise exactly one user is appended, carrying the hashed
password and `is_admin = false`. -/
theorem register_conflicts (user_data : RegisterRequest) (db : List UserRec) :
    ((∃ u ∈ db, u.email = user_data.email) →
      (register user_data db).1 =
        .error ⟨400, "Пользователь с таким email уже существует"⟩ ∧
      (register user_data db).2 = db) ∧
    ((∃ u ∈ db, u.username = user_data.username) →
      (∃ e, (register user_data db).1 = .error e ∧ e.status_code = 400) ∧
      (register user_data db).2 = db) ∧
    ((∀ u ∈ db, u.email ≠ user_data.email ∧ u.username ≠ user_data.username) →
      ∃ newUser, (register user_data db).1 = .ok newUser ∧
        (register user_data db).2 = db ++ [newUser] ∧
        newUser.username = user_data.username ∧
        newUser.email = user_data.email ∧
        newUser.hashed_password = get_password_hash user_data.password ∧
        newUser.is_admin = false) := by
  refine ⟨fun ⟨u, hu, he⟩ => ?_, fun ⟨u, hu, hn⟩ => ?_, fun hok => ?_⟩
  · have hsome : (db.find? (fun x => x.email == user_data.email)).isSome :=
      List.find?_isSome.mpr ⟨u, hu, by simp [he]⟩
    obtain ⟨v, hv⟩ := Option.isSome_iff_exists.mp hsome
    exact ⟨by simp [register, hv], by simp [register, hv]⟩
  · cases hfe : db.find? (fun x => x.email == user_data.email) with
    | some v =>
      exact ⟨⟨⟨400, "Пользователь с таким email уже существует"⟩,
              by simp [register, hfe], rfl⟩, by simp [register, hfe]⟩
    | none =>
      have hsome : (db.find? (fun x => x.username == user_data.username)).isSome :=
        List.find?_isSome.mpr ⟨u, hu, by simp [hn]⟩
      obtain ⟨v, hv⟩ := Option.isSome_iff_exists.mp hsome
      exact ⟨⟨⟨400, "Пользователь с таким именем уже существует"⟩,
              by simp [register, hfe, hv], rfl⟩, by simp [register, hfe, hv]⟩
  · have hfe : db.find? (fun x => x.email == user_data.email) = none := by
      rw [List.find?_eq_none]
      intro x hx
      simpa using (hok x hx).1
    have hfu : db.find? (fun x => x.username == user_data.username) = none := by
      rw [List.find?_eq_none]
      intro x hx
      simpa using (hok x hx).2
    exact ⟨{ id := nextId (db.map (fun u => u.id)),
             username := user_data.username,
             email := user_data.email,
             hashed_password := get_password_hash user_data.password,
             is_admin := false },
           by simp [register, hfe, hfu], by simp [register, hfe, hfu],
           rfl, rfl, rfl, rfl⟩

/-- Witness for `register_conflicts`: a second registration reusing an
existing account's email is refused and the store is unchanged. -/
theorem register_conflicts_witness :
    (∃ u ∈ [UserRec.mk 1 "alice" "bob@x.com" "h" false], u.email = "bob@x.com") ∧
    (register ⟨"bob", "bob@x.com", "pw123456"⟩
        [UserRec.mk 1 "alice" "bob@x.com" "h" false]).1 =
      .error ⟨400, "Пользователь с таким email уже существует"⟩ ∧
    (register ⟨"bob", "bob@x.com", "pw123456"⟩
        [UserRec.mk 1 "alice" "bob@x.com" "h" false]).2 =
      [UserRec.mk 1 "alice" "bob@x.com" "h" false] :=
  ⟨⟨UserRec.mk 1 "alice" "bob@x.com" "h" false, by simp, rfl⟩,
   (register_conflicts ⟨"bob", "bob@x.com", "pw123456"⟩
      [UserRec.mk 1 "alice" "bob@x.com" "h" false]).1
      ⟨UserRec.mk 1 "alice" "bob@x.com" "h" false, by simp, rfl⟩⟩

/-- C6: under an authorized admin gate, product creation fails with 400
when the referenced seller does not exist (whatever the price), fails
with the 422 validation error when the seller exists but the price is
zero or negative, and inserts the product exactly when the seller
exists and the price is strictly positive; the store is unchanged in
both failure cases. -/
theorem create_product_validation (m : JWTManager) (tok : Jwt) (now : Nat)
    (users : List UserRec) (sellers : List SellerRec)
    (products : List ProductRec) (product_data : ProductCreate)
    (a : AdminData) (hadmin : get_current_admin m tok now users = .ok a) :
    (sellers.find? (fun x => x.id == product_data.seller_id) = none →
      (create_product m tok now users sellers products product_data) =
        (.error ⟨400, "Указанный продавец не существует"⟩, products)) ∧
    (∀ s, sellers.find? (fun x => x.id == product_data.seller_id) = some s →
      product_data.price ≤ 0 →
      (create_product m tok now users sellers products product_data) =
        (.error ⟨422, "Цена должна быть положительным числом"⟩, products)) ∧
    (∀ s, sellers.find? (fun x => x.id == product_data.seller_id) = some s →
      0 < product_data.price →
      ∃ p, (create_product m tok now users sellers products product_data).1 = .ok p ∧
        (create_product m tok now users sellers products product_data).2 =
          products ++ [p] ∧
        p.name = product_data.name ∧
        p.price = product_data.price ∧
        p.seller_id = product_data.seller_id) := by
  refine ⟨fun hf => ?_, fun s hf hp => ?_, fun s hf hp => ?_⟩
  · simp [create_product, hadmin, hf]
  · simp [create_product, hadmin, hf, hp]
  · have hnp : ¬ product_data.price ≤ 0 := not_le.mpr hp
    exact ⟨{ id := nextId (products.map (fun q => q.id)),
             name := product_data.name,
             price := product_data.price,
             seller_id := product_data.seller_id },
           by simp [create_product, hadmin, hf, hnp],
           by simp [create_product, hadmin, hf, hnp], rfl, rfl, rfl⟩

/-- Witness for `create_product_validation`: an admin-authorized
request with price 0 against an existing seller is rejected with the
422 validation error and the product table stays empty. -/
theorem create_product_validation_witness :
    get_current_admin (JWTManager.mk "secret" 30)
        ⟨⟨⟨some "1", "admin", "admin@example.com", true⟩, 100⟩, "secret"⟩ 0
        [UserRec.mk 1 "admin" "admin@example.com" "h" true] =
      .ok ⟨1, "admin", true⟩ ∧
    ([SellerRec.mk 1 "ElectroTech" 5].find?
        (fun x => x.id == (ProductCreate.mk "item" 0 1).seller_id) =
      some (SellerRec.mk 1 "ElectroTech" 5)) ∧
    (ProductCreate.mk "item" 0 1).price ≤ 0 ∧
    create_product (JWTManager.mk "secret" 30)
        ⟨⟨⟨some "1", "admin", "admin@example.com", true⟩, 100⟩, "secret"⟩ 0
        [UserRec.mk 1 "admin" "admin@example.com" "h" true]
        [SellerRec.mk 1 "ElectroTech" 5] [] (ProductCreate.mk "item" 0 1) =
      (.error ⟨422, "Цена должна быть положительным числом"⟩, []) :=
  ⟨rfl, by decide, by decide,
   (create_product_validation (JWTManager.mk "secret" 30)
      ⟨⟨⟨some "1", "admin", "admin@example.com", true⟩, 100⟩, "secret"⟩ 0
      [UserRec.mk 1 "admin" "admin@example.com" "h" true]
      [SellerRec.mk 1 "ElectroTech" 5] [] (ProductCreate.mk "item" 0 1)
      ⟨1, "admin", true⟩ rfl).2.1
      (SellerRec.mk 1 "ElectroTech" 5) (by decide) (by decide)⟩

/-- C4: every order-creation request fails and never writes an order.
After the user gate passes, the handler's first step reads
`order_data.product_id`, an attribute the `OrderCreate` schema
(`seller_id`, `total`) does not define, so every request dies with an
uncaught `AttributeError` (an HTTP 500), and requests failing the gate
die with 401; in no case is a row added to the order table. -/
theorem create_order_never_creates (m : JWTManager) (tok : Jwt) (now : Nat)
    (orders : List OrderRec) (order_data : OrderCreate) :
    (create_order m tok now orders order_data).2 = orders ∧
    (∀ r, (create_order m tok now orders order_data).1 ≠ Outcome.ok r) ∧
    ((∃ uid, get_current_user m tok now = .ok uid) →
      (create_order m tok now orders order_data).1 =
        .pythonError "AttributeError: 'OrderCreate' object has no attribute 'product_id'") := by
  unfold create_order
  cases hg : get_current_user m tok now with
  | error e => exact ⟨rfl, fun r h => Outcome.noConfusion h,
                      fun ⟨uid, huid⟩ => Except.noConfusion huid⟩
  | ok uid => exact ⟨rfl, fun r h => Outcome.noConfusion h, fun _ => rfl⟩

/-- C7 counterexample: the caller with user id 2 is an admin (their
token even passes the admin gate against the live store), the order
with id 1 exists but belongs to user 1, and yet deletion answers 404
and leaves the order in place — the admin is not exempt from the
ownership scope. -/
theorem delete_order_admin_not_exempt :
    (UserRec.mk 2 "boss" "boss@x.com" "h" true).is_admin = true ∧
    get_current_user (JWTManager.mk "secret" 30)
        ⟨⟨⟨some "2", "boss", "boss@x.com", true⟩, 100⟩, "secret"⟩ 0 = .ok 2 ∧
    get_current_admin (JWTManager.mk "secret" 30)
        ⟨⟨⟨some "2", "boss", "boss@x.com", true⟩, 100⟩, "secret"⟩ 0
        [UserRec.mk 2 "boss" "boss@x.com" "h" true] = .ok ⟨2, "boss", true⟩ ∧
    (OrderRec.mk 1 1 1 10 0).user_id ≠ 2 ∧
    delete_order (JWTManager.mk "secret" 30)
        ⟨⟨⟨some "2", "boss", "boss@x.com", true⟩, 100⟩, "secret"⟩ 0
        [OrderRec.mk 1 1 1 10 0] 1 =
      (.error ⟨404, "Заказ не найден или нет доступа"⟩, [OrderRec.mk 1 1 1 10 0]) := by
  exact ⟨rfl, rfl, rfl, by decide, rfl⟩

/-- C7 amended: order deletion is scoped to the requesting user with no
admin exemption — for every caller (the handler never reads the user
table, so the caller's admin flag cannot influence it), the order is
deleted exactly when an order with that id owned by the caller exists;
otherwise the handler answers 404 and the store is unchanged. -/
theorem delete_order_owner_scoped (m : JWTManager) (tok : Jwt) (now : Nat)
    (orders : List OrderRec) (order_id uid : Int)
    (h : get_current_user m tok now = .ok uid) :
    ((¬ ∃ o ∈ orders, o.id = order_id ∧ o.user_id = uid) →
      delete_order m tok now orders order_id =
        (.error ⟨404, "Заказ не найден или нет доступа"⟩, orders)) ∧
    ((∃ o ∈ orders, o.id = order_id ∧ o.user_id = uid) →
      (delete_order m tok now orders order_id).1 = .ok () ∧
      ∀ q, q ∈ (delete_order m tok now orders order_id).2 ↔
        (q ∈ orders ∧ ¬(q.id = order_id ∧ q.user_id = uid))) := by
  constructor
  · intro hne
    have hf : orders.find? (fun o => o.id == order_id && o.user_id == uid) = none := by
      rw [List.find?_eq_none]
      intro o ho
      simp only [Bool.and_eq_true, beq_iff_eq]
      exact fun hc => hne ⟨o, ho, hc⟩
    simp [delete_order, h, hf]
  · rintro ⟨o, ho, hoid, houid⟩
    have hsome : (orders.find? (fun o => o.id == order_id && o.user_id == uid)).isSome :=
      List.find?_isSome.mpr ⟨o, ho, by simp [hoid, houid]⟩
    obtain ⟨v, hv⟩ := Option.isSome_iff_exists.mp hsome
    refine ⟨by simp [delete_order, h, hv], fun q => ?_⟩
    simp [delete_order, h, hv, List.mem_filter, not_and]
    tauto

/-- Witness for `delete_order_owner_scoped`: the owner deletes their
own order. -/
theorem delete_order_owner_scoped_witness :
    get_current_user (JWTManager.mk "secret" 30)
        ⟨⟨⟨some "1", "alice", "a@x.com", false⟩, 100⟩, "secret"⟩ 0 = .ok 1 ∧
    (delete_order (JWTManager.mk "secret" 30)
        ⟨⟨⟨some "1", "alice", "a@x.com", false⟩, 100⟩, "secret"⟩ 0
        [OrderRec.mk 1 1 1 10 0] 1).1 = .ok () :=
  ⟨rfl,
   ((delete_order_owner_scoped (JWTManager.mk "secret" 30)
      ⟨⟨⟨some "1", "alice", "a@x.com", false⟩, 100⟩, "secret"⟩ 0
      [OrderRec.mk 1 1 1 10 0] 1 1 rfl).2
      ⟨OrderRec.mk 1 1 1 10 0, by simp, rfl, rfl⟩).1⟩

/-- C10: under an authorized admin gate, on an existing product and a
payload passing the seller and price validations, the committed
product table is the id-guarded rewrite of the old one: every product
with a different id is untouched, and the target keeps every field the
payload leaves unset (its id included). -/
theorem update_product_frame (m : JWTManager) (tok : Jwt) (now : Nat)
    (users : List UserRec) (sellers : List SellerRec)
    (products : List ProductRec) (product_id : Int)
    (product_data : ProductUpdate) (a : AdminData) (p : ProductRec)
    (hadmin : get_current_admin m tok now users = .ok a)
    (hfound : products.find? (fun x => x.id == product_id) = some p)
    (hseller : ∀ sid, product_data.seller_id = some sid →
      ∃ s, sellers.find? (fun x => x.id == sid) = some s)
    (hprice : ∀ pr, product_data.price = some pr → 0 < pr) :
    (update_product m tok now users sellers products product_id product_data).2 =
      products.map (fun q =>
        if q.id == product_id then applyProductUpdate q product_data else q) ∧
    (∀ q ∈ products, q.id ≠ product_id →
      q ∈ (update_product m tok now users sellers products product_id product_data).2) ∧
    (∀ q ∈ products, q.id = product_id →
      ∃ q', q' ∈ (update_product m tok now users sellers products product_id product_data).2 ∧
        q'.id = q.id ∧
        (product_data.name = none → q'.name = q.name) ∧
        (product_data.price = none → q'.price = q.price) ∧
        (product_data.seller_id = none → q'.seller_id = q.seller_id)) := by
  have htail : update_product_tail p products product_id product_data =
      (.ok (applyProductUpdate p product_data),
       products.map (fun q =>
         if q.id == product_id then applyProductUpdate q product_data else q)) := by
    unfold update_product_tail
    cases hpr : product_data.price with
    | none => rfl
    | some pr => simp [not_le.mpr (hprice pr hpr)]
  have hmain : (update_product m tok now users sellers products product_id product_data).2 =
      products.map (fun q =>
        if q.id == product_id then applyProductUpdate q product_data else q) := by
    cases hsid : product_data.seller_id with
    | none => simp [update_product, hadmin, hfound, hsid, htail]
    | some sid =>
      obtain ⟨s, hs⟩ := hseller sid hsid
      simp [update_product, hadmin, hfound, hsid, hs, htail]
  refine ⟨hmain, fun q hq hne => ?_, fun q hq hid => ?_⟩
  · rw [hmain]
    refine List.mem_map.mpr ⟨q, hq, ?_⟩
    simp [hne]
  · refine ⟨applyProductUpdate q product_data, ?_, rfl, ?_, ?_, ?_⟩
    · rw [hmain]
      exact List.mem_map.mpr ⟨q, hq, by simp [hid]⟩
    · intro hn; simp [applyProductUpdate, hn]
    · intro hn; simp [applyProductUpdate, hn]
    · intro hn; simp [applyProductUpdate, hn]

/-- Witness for `update_product_frame`: an admin updates only the price
of product 1; its name, seller and id are untouched, and product 2 is
untouched. -/
theorem update_product_frame_witness :
    (update_product (JWTManager.mk "secret" 30)
        ⟨⟨⟨some "1", "admin", "admin@example.com", true⟩, 100⟩, "secret"⟩ 0
        [UserRec.mk 1 "admin" "admin@example.com" "h" true]
        [SellerRec.mk 1 "ElectroTech" 5]
        [ProductRec.mk 1 "phone" 10 1, ProductRec.mk 2 "laptop" 20 1] 1
        (ProductUpdate.mk none (some 15) none)).2 =
      [ProductRec.mk 1 "phone" 15 1, ProductRec.mk 2 "laptop" 20 1] :=
  Trans.trans
    (update_product_frame (JWTManager.mk "secret" 30)
      ⟨⟨⟨some "1", "admin", "admin@example.com", true⟩, 100⟩, "secret"⟩ 0
      [UserRec.mk 1 "admin" "admin@example.com" "h" true]
      [SellerRec.mk 1 "ElectroTech" 5]
      [ProductRec.mk 1 "phone" 10 1, ProductRec.mk 2 "laptop" 20 1] 1
      (ProductUpdate.mk none (some 15) none)
      ⟨1, "admin", true⟩ (ProductRec.mk 1 "phone" 10 1)
      rfl (by decide)
      (fun sid hsid => by cases hsid)
      (fun pr hpr => by cases hpr; norm_num)).1
    (by decide)

end Marketplace
